import Mathlib

/-!
Shallow embedding of the zendesk-summarizer ingestion pipeline.

The definitions below are translated from the JavaScript sources:
  backend/src/config/zendesk.js      (enrichment, form-field registry, audit records)
  backend/src/services/chunking.js   (chunkTicketData)
  backend/src/services/embedding.js  (embedText retry loop, truncation, cache)
  backend/src/config/pinecone.js     (upsertVectors)
  backend/src/controllers/navbar.js  (autoImportTickets orchestrator)

JavaScript-specific behaviour (truthiness of `||`, `Object` key update
semantics, `String.prototype.trim`) is modelled explicitly by the small
helper functions at the top.  External I/O (HTTP responses) is modelled by
passing each call's outcome as an explicit argument of type `Except` or as
an outcome function, so every definition is a total, executable function.
-/

set_option maxRecDepth 10000

/-! ## JavaScript value and truthiness helpers -/

/-- Primitive JavaScript value as it appears in ticket custom fields. -/
inductive JSVal where
  | str (s : String)
  | num (n : Int)
  | boolean (b : Bool)
  | null
  deriving DecidableEq

/-- Template-literal rendering of a JS value (only the cases the data model uses). -/
def JSVal.render : JSVal → String
  | .str s => s
  | .num n => toString n
  | .boolean b => if b then "true" else "false"
  | .null => "null"

/-- JavaScript `a || b` where `a` is a possibly-absent string: `undefined`,
`null` and `""` are falsy. -/
def jsOrOpt (a : Option String) (b : String) : String :=
  match a with
  | some s => if s = "" then b else s
  | none => b

/-- JavaScript `a || b` for two strings: `""` is falsy. -/
def jsOrStr (a b : String) : String := if a = "" then b else a

/-- Characters stripped by `String.prototype.trim` (the subset occurring in
the templates of this code base: space, tab, LF, CR). -/
def jsWhitespace (c : Char) : Bool :=
  c = ' ' ∨ c = '\t' ∨ c = '\n' ∨ c = '\r'

/-- JavaScript `String.prototype.trim`: strip leading and trailing whitespace. -/
def jsTrim (s : String) : String :=
  String.mk (((s.data.dropWhile jsWhitespace).reverse.dropWhile jsWhitespace).reverse)

/-- JavaScript object key assignment `m[k] = v`: overwrite in place when the
key exists, otherwise append at the end. -/
def insertAssoc {κ β : Type} [BEq κ] : List (κ × β) → κ → β → List (κ × β)
  | [], k, v => [(k, v)]
  | p :: rest, k, v => if p.1 == k then (k, v) :: rest else p :: insertAssoc rest k v

/-- `msg.join(sep)` on a list of strings. -/
def joinSep (sep : String) : List String → String
  | [] => ""
  | [a] => a
  | a :: b :: rest => a ++ sep ++ joinSep sep (b :: rest)

/-- `list.map((x, idx) => f(idx, x))`, carrying the running index. -/
def mapWithIndex {α β : Type} (f : Nat → α → β) : Nat → List α → List β
  | _, [] => []
  | i, a :: rest => f i a :: mapWithIndex f (i + 1) rest

/-- Whether an `Except` outcome is a success (`try` body completed). -/
def exceptOk {ε α : Type} : Except ε α → Bool
  | .ok _ => true
  | .error _ => false

/-! ## Data model (zendesk.js) -/

/-- Raw Zendesk comment as returned by `GET /tickets/{id}/comments.json`. -/
structure Comment where
  author_id : Nat
  plain_body : Option String
  body : Option String
  created_at : String
  public : Bool
  deriving DecidableEq

/-- Raw custom-field entry `{id, value}` on a ticket. -/
structure CustomFieldRaw where
  id : Nat
  value : JSVal
  deriving DecidableEq

/-- Raw Zendesk ticket as returned by the search endpoint. -/
structure Ticket where
  id : Nat
  subject : Option String
  description : Option String
  status : String
  priority : String
  tags : Option (List String)
  created_at : String
  updated_at : String
  requester_id : Nat
  assignee_id : Option Nat
  custom_fields : List CustomFieldRaw
  deriving DecidableEq

/-- Raw ticket-field record from `GET /ticket_fields.json`. -/
structure RawTicketField where
  id : Nat
  title : String
  type : String
  description : Option String
  system : Bool
  key : Option String
  deriving DecidableEq

/-- Field descriptor stored in the form-field registry (`fieldsMap[field.id]`). -/
structure FieldDescriptor where
  id : Nat
  title : String
  type : String
  description : String
  system : Bool
  key : String
  deriving DecidableEq

/-- The registry map `fieldsMap`: JS object keyed by the numeric field id. -/
abbrev FieldsMap := List (Nat × FieldDescriptor)

/-- Descriptor stored by `fetchFormFields` for one raw field
(`description: field.description || ''`, `key: field.key || ''`). -/
def mkDescriptor (f : RawTicketField) : FieldDescriptor :=
  { id := f.id
    title := f.title
    type := f.type
    description := jsOrOpt f.description ""
    system := f.system
    key := jsOrOpt f.key "" }

/-- Value stored under a mapped custom-field name by `mapTicketCustomFields`. -/
structure CustomFieldData where
  value : JSVal
  type : String
  key : String
  description : String
  deriving DecidableEq

/-- `mapTicketCustomFields(ticket, fieldsMap)`: skip `null` and `''` values,
resolve ids through the registry, fall back to `Field_<id>` with type
`unknown` for unresolved ids. -/
def mapTicketCustomFields (ticket : Ticket) (fieldsMap : FieldsMap) :
    List (String × CustomFieldData) :=
  ticket.custom_fields.foldl
    (fun mapped field =>
      if field.value = JSVal.null ∨ field.value = JSVal.str "" then mapped
      else
        match List.lookup field.id fieldsMap with
        | some info =>
            insertAssoc mapped info.title
              ⟨field.value, info.type, info.key, info.description⟩
        | none =>
            insertAssoc mapped ("Field_" ++ toString field.id)
              ⟨field.value, "unknown", "", ""⟩)
    []

/-- One entry of an enriched ticket's conversation. -/
structure ConvEntry where
  author : String
  message : String
  created_at : String
  public : Bool
  deriving DecidableEq

/-- `fetchTicketComments(ticketId)`: the HTTP outcome is passed in; an error
is caught inside the function and absorbed into the empty list. -/
def fetchTicketComments (result : Except String (List Comment)) : List Comment :=
  match result with
  | .ok comments => comments
  | .error _ => []

/-- `comment.plain_body || comment.body || ''`. -/
def commentMessage (c : Comment) : String :=
  jsOrOpt c.plain_body (jsOrOpt c.body "")

/-- Conversation entry built from one comment: role classification compares
`comment.author_id` with `ticket.requester_id`. -/
def convEntryOf (ticket : Ticket) (c : Comment) : ConvEntry :=
  { author := if c.author_id = ticket.requester_id then "Customer" else "Agent"
    message := commentMessage c
    created_at := c.created_at
    public := c.public }

/-- The filter `c => c.author === 'Agent' && c.message.trim()` used for the
resolution: role is Agent and the trimmed message is non-empty (truthy). -/
def agentNonEmpty (c : ConvEntry) : Bool :=
  c.author == "Agent" && jsTrim c.message != ""

/-- Enriched ticket produced by `enrichTicketWithComments`. -/
structure EnrichedTicket where
  ticket_id : Nat
  subject : String
  description : String
  status : String
  priority : String
  tags : List String
  created_at : String
  updated_at : String
  conversation : List ConvEntry
  resolution : Option String
  custom_fields : List (String × CustomFieldData)
  requester_id : Nat
  assignee_id : Option Nat
  deriving DecidableEq

/-- `enrichTicketWithComments(ticket, fieldsMap)`: builds the conversation
from the fetched comments, extracts the resolution as the last agent comment
with truthy trimmed message (`agentComments[agentComments.length - 1]`,
i.e. `getLast?`), and projects custom fields when a fieldsMap is provided
(JS default parameter `fieldsMap = null`). -/
def enrichTicketWithComments (ticket : Ticket) (fieldsMap : Option FieldsMap)
    (commentsResult : Except String (List Comment)) : EnrichedTicket :=
  let comments := fetchTicketComments commentsResult
  let conversation := comments.map (convEntryOf ticket)
  let agentComments := conversation.filter agentNonEmpty
  let resolution := agentComments.getLast?.map (fun c => c.message)
  { ticket_id := ticket.id
    subject := jsOrOpt ticket.subject ""
    description := jsOrOpt ticket.description ""
    status := ticket.status
    priority := ticket.priority
    tags := ticket.tags.getD []
    created_at := ticket.created_at
    updated_at := ticket.updated_at
    conversation := conversation
    resolution := resolution
    custom_fields :=
      match fieldsMap with
      | some fm => mapTicketCustomFields ticket fm
      | none => []
    requester_id := ticket.requester_id
    assignee_id := ticket.assignee_id }

/-! ## Chunker (chunking.js) -/

/-- Typed metadata value of a chunk (JS object values used here). -/
inductive MetaVal where
  | str (s : String)
  | nat (n : Nat)
  | boolean (b : Bool)
  deriving DecidableEq

/-- A chunk: text plus a metadata object (association list of JS keys). -/
structure Chunk where
  text : String
  metadata : List (String × MetaVal)
  deriving DecidableEq

/-- `ticket.tags?.join(', ') || 'None'` style join of the tag list. -/
def joinedTags (t : EnrichedTicket) : String :=
  joinSep ", " t.tags

/-- The `customFieldsText` section of the overview chunk:
`'\nCustom Fields:\n' + fieldLines.join('\n')` when custom fields exist. -/
def customFieldsTextOf (t : EnrichedTicket) : String :=
  if t.custom_fields.length > 0 then
    "\nCustom Fields:\n" ++
      joinSep "\n" (t.custom_fields.map (fun p => p.1 ++ ": " ++ p.2.value.render))
  else ""

/-- `mainContent` of the overview chunk (template literal, then `.trim()`). -/
def mainContentOf (t : EnrichedTicket) : String :=
  jsTrim ("\nTicket ID: " ++ toString t.ticket_id ++
    "\nSubject: " ++ t.subject ++
    "\nDescription: " ++ jsOrStr t.description "N/A" ++
    "\nStatus: " ++ t.status ++
    "\nPriority: " ++ t.priority ++
    "\nTags: " ++ jsOrStr (joinedTags t) "None" ++
    customFieldsTextOf t ++ "\n")

/-- The overview chunk (always emitted). -/
def overviewChunk (t : EnrichedTicket) : Chunk :=
  { text := mainContentOf t
    metadata :=
      [("type", .str "ticket_overview"),
       ("ticket_id", .nat t.ticket_id),
       ("subject", .str t.subject),
       ("tags", .str (jsOrStr (joinedTags t) "")),
       ("has_custom_fields", .boolean (t.custom_fields.length > 0))] }

/-- `conversationText`: entries `«idx+1». «author»: «message»` joined by
blank lines. -/
def conversationTextOf (conv : List ConvEntry) : String :=
  joinSep "\n\n"
    (mapWithIndex (fun idx msg => toString (idx + 1) ++ ". " ++ msg.author ++ ": " ++ msg.message)
      0 conv)

/-- Full text of the conversation chunk. -/
def conversationChunkText (t : EnrichedTicket) : String :=
  "Ticket " ++ toString t.ticket_id ++ " Conversation:\n\n" ++
    conversationTextOf t.conversation

/-- The conversation chunk (emitted when the conversation is non-empty).
The source emits the whole joined text as a single chunk. -/
def conversationChunk (t : EnrichedTicket) : Chunk :=
  { text := conversationChunkText t
    metadata :=
      [("type", .str "conversation"),
       ("ticket_id", .nat t.ticket_id),
       ("subject", .str t.subject)] }

/-- Chunks contributed by the conversation: `if (ticket.conversation &&
ticket.conversation.length > 0)` push one chunk. -/
def conversationChunks (t : EnrichedTicket) : List Chunk :=
  if t.conversation.length > 0 then [conversationChunk t] else []

/-- JS truthiness of the optional resolution string. -/
def jsTruthyOptStr : Option String → Bool
  | none => false
  | some s => s != ""

/-- Text of the resolution chunk (template literal, then `.trim()`);
`Solution: ${ticket.resolution}` interpolates the resolution string. -/
def resolutionChunkText (t : EnrichedTicket) : String :=
  jsTrim ("\nTicket " ++ toString t.ticket_id ++ " Resolution:\nProblem: " ++ t.subject ++
    "\nSolution: " ++ (t.resolution.getD "") ++
    "\nRelated Tags: " ++ jsOrStr (joinedTags t) "None" ++ "\n")

/-- The resolution chunk. -/
def resolutionChunk (t : EnrichedTicket) : Chunk :=
  { text := resolutionChunkText t
    metadata :=
      [("type", .str "resolution"),
       ("ticket_id", .nat t.ticket_id),
       ("subject", .str t.subject),
       ("tags", .str (jsOrStr (joinedTags t) ""))] }

/-- Chunks contributed by the resolution: `if (ticket.resolution)` push one. -/
def resolutionChunks (t : EnrichedTicket) : List Chunk :=
  if jsTruthyOptStr t.resolution then [resolutionChunk t] else []

/-- Text of the custom-fields chunk:
entries `«name» («type»): «value»` joined by newlines. -/
def fieldsChunkText (t : EnrichedTicket) : String :=
  "Ticket " ++ toString t.ticket_id ++ " Form Fields:\n\n" ++
    joinSep "\n"
      (t.custom_fields.map (fun p => p.1 ++ " (" ++ p.2.type ++ ")" ++ ": " ++ p.2.value.render))

/-- The custom-fields chunk. -/
def customFieldsChunk (t : EnrichedTicket) : Chunk :=
  { text := fieldsChunkText t
    metadata :=
      [("type", .str "custom_fields"),
       ("ticket_id", .nat t.ticket_id),
       ("subject", .str t.subject),
       ("field_count", .nat t.custom_fields.length)] }

/-- Chunks contributed by the custom fields. -/
def customFieldsChunks (t : EnrichedTicket) : List Chunk :=
  if t.custom_fields.length > 0 then [customFieldsChunk t] else []

/-- `chunkTicketData(ticket)`: the conditional `chunks.push(...)` sequence of
the source, in source order. -/
def chunkTicketData (t : EnrichedTicket) : List Chunk :=
  [overviewChunk t] ++ conversationChunks t ++ resolutionChunks t ++ customFieldsChunks t

/-- Whether a chunk's metadata marks it as a conversation chunk. -/
def isConversationChunk (c : Chunk) : Bool :=
  decide (c.metadata.lookup "type" = some (.str "conversation"))

/-! ## Embedding client (embedding.js) -/

/-- Parsed state of the `retry-after` response header on a 429:
absent (`headers['retry-after']` is `undefined`), present but not a number
(`parseFloat` gives `NaN`), or a number of seconds. -/
inductive RetryAfter where
  | absent
  | unparseable
  | seconds (n : Nat)
  deriving DecidableEq

/-- Outcome of one attempt of the `axios.post` call inside `embedText`. -/
inductive EmbedAttempt (V : Type) where
  | ok (v : V)
  | http429 (retryAfter : RetryAfter)
  | httpErr (status : Nat)
  | netError
  | timeoutErr
  deriving DecidableEq

/-- Sleep in ms performed on a 429, as computed by the source:
`retryAfter = headers['retry-after'] || baseRetryDelay * 2 ** attempt;`
`retryDelay = parseFloat(retryAfter) * 1000 || baseRetryDelay * 2 ** attempt;`
with `baseRetryDelay = 1000`.  When the header is absent the numeric
fallback (already in ms) is multiplied by 1000 once more. -/
def delay429 : RetryAfter → Nat → Nat
  | .seconds n, attempt => if n * 1000 ≠ 0 then n * 1000 else 1000 * 2 ^ attempt
  | .unparseable, attempt => 1000 * 2 ^ attempt
  | .absent, attempt => 1000 * 2 ^ attempt * 1000

/-- Exponential backoff used for 5xx, network and timeout errors:
`baseRetryDelay * 2 ** attempt` ms. -/
def backoffDelay (attempt : Nat) : Nat := 1000 * 2 ^ attempt

/-- Result of the retry loop of `embedText`. -/
inductive EmbedResult (V : Type) where
  | success (v : V)
  | fatal (msg : String)
  | exhausted
  deriving DecidableEq

/-- Observable outcome of the retry loop: final result, every sleep
performed (ms, in order) and the number of attempts made. -/
structure LoopOut (V : Type) where
  result : EmbedResult V
  sleeps : List Nat
  attempts : Nat
  deriving DecidableEq

/-- The `for (attempt = 0; attempt < maxRetries; attempt++)` loop of
`embedText`, with `maxRetries = 5` supplied as structural fuel.
`pace0` is the truth of `embeddingCache.size > 0` (the pre-request pause
`delayBetweenRequests = 20` ms runs when `attempt > 0 || cache non-empty`).
404 is fatal without retry; other non-429 4xx rethrow immediately;
429, 5xx, network and timeout errors sleep and retry. -/
def embedLoopAux {V : Type} (outcome : Nat → EmbedAttempt V) (pace0 : Bool) :
    Nat → Nat → LoopOut V
  | 0, _ => { result := .exhausted, sleeps := [], attempts := 0 }
  | fuel + 1, attempt =>
    let pre : List Nat := if attempt > 0 ∨ pace0 then [20] else []
    match outcome attempt with
    | .ok v => { result := .success v, sleeps := pre, attempts := 1 }
    | .http429 h =>
        let r := embedLoopAux outcome pace0 fuel (attempt + 1)
        { result := r.result
          sleeps := pre ++ delay429 h attempt :: r.sleeps
          attempts := r.attempts + 1 }
    | .httpErr status =>
        if status = 404 then
          { result := .fatal "Model not available", sleeps := pre, attempts := 1 }
        else if 500 ≤ status then
          let r := embedLoopAux outcome pace0 fuel (attempt + 1)
          { result := r.result
            sleeps := pre ++ backoffDelay attempt :: r.sleeps
            attempts := r.attempts + 1 }
        else
          { result := .fatal ("HTTP " ++ toString status), sleeps := pre, attempts := 1 }
    | .netError =>
        let r := embedLoopAux outcome pace0 fuel (attempt + 1)
        { result := r.result
          sleeps := pre ++ backoffDelay attempt :: r.sleeps
          attempts := r.attempts + 1 }
    | .timeoutErr =>
        let r := embedLoopAux outcome pace0 fuel (attempt + 1)
        { result := r.result
          sleeps := pre ++ backoffDelay attempt :: r.sleeps
          attempts := r.attempts + 1 }

/-- The retry loop entered with `attempt = 0` and `maxRetries = 5`. -/
def embedLoop {V : Type} (outcome : Nat → EmbedAttempt V) (pace0 : Bool) : LoopOut V :=
  embedLoopAux outcome pace0 5 0

/-- `MAX_CHARS = 7000` truncation performed before transmission:
`text.substring(0, MAX_CHARS) + '... [truncated]'` when the text is longer. -/
def processTextOf (text : String) : String :=
  if text.length > 7000 then String.mk (text.data.take 7000) ++ "... [truncated]" else text

/-- Observable outcome of one `embedText(text, useCache)` call:
final result, cache after the call, the transmitted request text (none when
the cache answered), sleeps and attempt count. -/
structure EmbedCallOut (V : Type) where
  result : EmbedResult V
  cache : List (String × V)
  transmitted : Option String
  sleeps : List Nat
  attempts : Nat

/-- `embedText(text, useCache)`: truncate, consult the cache keyed by the
processed text, otherwise run the retry loop and cache a success under the
processed text. -/
def embedTextModel {V : Type} (cache : List (String × V)) (text : String)
    (useCache : Bool) (outcome : Nat → EmbedAttempt V) : EmbedCallOut V :=
  let processText := processTextOf text
  match (if useCache then cache.lookup processText else none) with
  | some v =>
      { result := .success v, cache := cache, transmitted := none, sleeps := [], attempts := 0 }
  | none =>
      let out := embedLoop outcome (cache.length > 0)
      { result := out.result
        cache :=
          match out.result with
          | .success v => if useCache then insertAssoc cache processText v else cache
          | _ => cache
        transmitted := some processText
        sleeps := out.sleeps
        attempts := out.attempts }

/-! ## Vector store client (pinecone.js) -/

/-- The `for (let i = 0; i < vectors.length; i += batchSize)` loop of
`upsertVectors` with `batchSize = 100`.  `f k` is the outcome of the
`index.upsert` call for batch `k` (numbered from 0): `none` commits the
batch, `some e` raises.  Returns the committed batches in order and the
propagated error, if any.  The fuel is the list length; each step consumes
at least one element, so the fuel-exhausted branch is unreachable. -/
def upsertLoopAux {α : Type} (f : Nat → Option String) :
    Nat → Nat → List α → List (List α) × Option String
  | _, _, [] => ([], none)
  | 0, _, _ :: _ => ([], none)
  | fuel + 1, k, a :: rest =>
    match f k with
    | some e => ([], some e)
    | none =>
        let out := upsertLoopAux f fuel (k + 1) ((a :: rest).drop 100)
        ((a :: rest).take 100 :: out.1, out.2)

/-- `upsertVectors(vectors)` with the default batch size 100. -/
def upsertVectorsModel {α : Type} (f : Nat → Option String) (l : List α) :
    List (List α) × Option String :=
  upsertLoopAux f l.length 0 l

/-! ## Form-field registry (zendesk.js fetchFormFields) -/

/-- One page of `GET /ticket_fields.json` results. -/
structure FieldPage where
  ticket_fields : List RawTicketField
  deriving DecidableEq

/-- The paginated load loop of `fetchFormFields`: walk the `next_page`
chain, store each field under its id, break on a page error (partial map
retained).  Returns the map together with the number of page requests
performed. -/
def loadFormFields : List (Except String FieldPage) → FieldsMap → FieldsMap × Nat
  | [], acc => (acc, 0)
  | .error _ :: _, acc => (acc, 1)
  | .ok page :: rest, acc =>
    let acc2 := page.ticket_fields.foldl
      (fun m f => insertAssoc m f.id (mkDescriptor f)) acc
    let out := loadFormFields rest acc2
    (out.1, out.2 + 1)

/-- `fetchFormFields()`: return the cached map without I/O when present,
otherwise run the paginated load and cache the result.  Returns
((returned map, page requests performed), cache after the call). -/
def fetchFormFields (cache : Option FieldsMap)
    (pages : List (Except String FieldPage)) : (FieldsMap × Nat) × Option FieldsMap :=
  match cache with
  | some m => ((m, 0), some m)
  | none =>
    let out := loadFormFields pages []
    ((out.1, out.2), some out.1)

/-- A sequence of `fetchFormFields()` calls threaded through the module
cache: each element of `inputs` is the page chain the ticketing API would
serve for that call. -/
def registryRun (cache : Option FieldsMap) :
    List (List (Except String FieldPage)) → List (FieldsMap × Nat) × Option FieldsMap
  | [] => ([], cache)
  | input :: rest =>
    let r := fetchFormFields cache input
    let out := registryRun r.2 rest
    (r.1 :: out.1, out.2)

/-! ## Ingestion orchestrator (navbar.js autoImportTickets) -/

/-- A Pinecone vector prepared by the orchestrator. -/
structure PVector (V : Type) where
  id : String
  values : V
  metadata : List (String × MetaVal)
  deriving DecidableEq

/-- Vector metadata: spread of the chunk metadata plus provenance keys
(`content`, `source`, `importDate`); the `created_at`/`updated_at` keys
copy the chunk metadata entries of the same name and are dropped when
absent (a JS `undefined` value disappears on JSON serialization). -/
def vectorMetadata (importDate : String) (c : Chunk) : List (String × MetaVal) :=
  let base := insertAssoc (insertAssoc (insertAssoc c.metadata
    "content" (.str c.text)) "source" (.str "auto_import")) "importDate" (.str importDate)
  let base2 := match c.metadata.lookup "created_at" with
    | some v => insertAssoc base "created_at" v
    | none => base
  match c.metadata.lookup "updated_at" with
  | some v => insertAssoc base2 "updated_at" v
  | none => base2

/-- Vector identifier `auto-ticket-«ticketId»-chunk-«chunkIndex»-«timestamp»`. -/
def vectorId (ticketId chunkIndex timestamp : Nat) : String :=
  "auto-ticket-" ++ toString ticketId ++ "-chunk-" ++ toString chunkIndex ++
    "-" ++ toString timestamp

/-- External outcomes consumed by one `autoImportTickets` run.  The model
starts after the request validation and the (never-throwing)
`fetchFormFields`/`fetchTicketsByDateRange` calls, whose combined result is
the `fetched` list.  `enrichResult` is the outcome of
`enrichTicketWithComments` per ticket (the loop catches per-ticket errors),
`embedBatch` the outcome of `embedTextBatch`, `upsertResult` the outcome of
`upsertVectors`. -/
structure OrchDeps (V : Type) where
  startDate : String
  endDate : String
  fetched : List Ticket
  enrichResult : Ticket → Except String EnrichedTicket
  embedBatch : List String → Except String (List V)
  upsertResult : List (PVector V) → Except String Unit
  timestamp : Nat
  importDate : String

/-- Externally visible side effects of one run, in program order.
`successRecord` and `errorRecord` are the audit writes performed by
`createZendeskImportRecord` / `createZendeskErrorImportRecord` (both absorb
their own failures, so only the attempted payload is recorded). -/
inductive OrchEvent (V : Type) where
  | successRecord (startDate endDate : String) (ticketCount : Nat) (source : String)
  | errorRecord (startDate endDate errorMessage : String)
  | enrichAttempt (ticketId : Nat) (ok : Bool)
  | embedBatchCall (texts : List String)
  | upsertCall (vectorCount : Nat)
  deriving DecidableEq

/-- The JSON payload returned to the HTTP caller. -/
inductive OrchResponse where
  | json (status : String) (ticketsProcessed totalChunks : Nat)
  | serverError (details : String)
  deriving DecidableEq

/-- `autoImportTickets` in standard mode: fetch (already done, `d.fetched`),
write the import record with `ticketCount: tickets.length`, return early on
zero tickets, enrich with per-ticket error absorption (the batches of 10
only insert pauses and do not change the result), chunk, embed, upsert,
respond; any later exception is caught and answered with an error record
and a 500 response. -/
def orchSuccessEv {V : Type} (d : OrchDeps V) : OrchEvent V :=
  .successRecord d.startDate d.endDate d.fetched.length "auto_import"

/-- `enrichedTickets`: the fetched tickets whose enrichment succeeded, in
fetch order (the per-ticket `catch` skips the failures). -/
def orchEnriched {V : Type} (d : OrchDeps V) : List EnrichedTicket :=
  d.fetched.filterMap (fun t => (d.enrichResult t).toOption)

/-- The per-ticket enrichment attempts, in fetch order. -/
def orchEnrichEvents {V : Type} (d : OrchDeps V) : List (OrchEvent V) :=
  d.fetched.map (fun t => OrchEvent.enrichAttempt t.id (exceptOk (d.enrichResult t)))

/-- `allChunks`: every chunk of every enriched ticket, tagged with its
ticket id and chunk index. -/
def orchAllChunks {V : Type} (d : OrchDeps V) : List (Chunk × Nat × Nat) :=
  ((orchEnriched d).map
    (fun t => mapWithIndex (fun i c => (c, t.ticket_id, i)) 0 (chunkTicketData t))).flatten

/-- The chunk texts handed to `embedTextBatch`. -/
def orchTexts {V : Type} (d : OrchDeps V) : List String :=
  (orchAllChunks d).map (fun x => x.1.text)

/-- The vectors prepared for Pinecone from the returned embeddings
(`embeddings.map((embedding, idx) => ...)`, one vector per embedding). -/
def orchVectors {V : Type} (d : OrchDeps V) (embeddings : List V) : List (PVector V) :=
  (embeddings.zip (orchAllChunks d)).map
    (fun p => PVector.mk (vectorId p.2.2.1 p.2.2.2 d.timestamp) p.1
      (vectorMetadata d.importDate p.2.1))

def autoImportModel {V : Type} (d : OrchDeps V) : List (OrchEvent V) × OrchResponse :=
  if d.fetched.length = 0 then
    ([orchSuccessEv d], .json "No tickets found in date range" 0 0)
  else
    match d.embedBatch (orchTexts d) with
    | .error e =>
      ([orchSuccessEv d] ++ orchEnrichEvents d ++
        [.embedBatchCall (orchTexts d),
         .errorRecord d.startDate d.endDate ("Embedding generation failed: " ++ e)],
       .serverError ("Embedding generation failed: " ++ e))
    | .ok embeddings =>
      match d.upsertResult (orchVectors d embeddings) with
      | .error e =>
        ([orchSuccessEv d] ++ orchEnrichEvents d ++
          [.embedBatchCall (orchTexts d), .upsertCall (orchVectors d embeddings).length,
           .errorRecord d.startDate d.endDate e],
         .serverError e)
      | .ok _ =>
        ([orchSuccessEv d] ++ orchEnrichEvents d ++
          [.embedBatchCall (orchTexts d), .upsertCall (orchVectors d embeddings).length],
         .json "Import completed successfully" (orchEnriched d).length
           (orchVectors d embeddings).length)

/-- Ticket counts of the success audit records in an event trace. -/
def successCounts {V : Type} (evs : List (OrchEvent V)) : List Nat :=
  evs.filterMap (fun e =>
    match e with
    | .successRecord _ _ n _ => some n
    | _ => none)

/-- Whether an event is an embedding API call. -/
def isEmbedCall {V : Type} : OrchEvent V → Bool
  | .embedBatchCall _ => true
  | _ => false

/-- Whether an event is a vector-store upsert call. -/
def isUpsertCall {V : Type} : OrchEvent V → Bool
  | .upsertCall _ => true
  | _ => false

/-! ## Concrete inputs used by the closed theorems below -/

/-- A 6463-character message; serialized in a conversation chunk it yields
exactly 6500 characters of chunk text. -/
def c1LongMessage : String := String.mk (List.replicate 6463 'a')

/-- Enriched ticket whose conversation chunk text is 6500 characters. -/
def c1BigTicket : EnrichedTicket :=
  { ticket_id := 1, subject := "S", description := "D", status := "open"
    priority := "normal", tags := [], created_at := "", updated_at := ""
    conversation := [⟨"Customer", c1LongMessage, "", true⟩]
    resolution := none, custom_fields := [], requester_id := 1, assignee_id := none }

/-- Small enriched ticket with a one-entry conversation. -/
def c1SmallTicket : EnrichedTicket :=
  { ticket_id := 2, subject := "Login fails", description := "cannot log in"
    status := "open", priority := "normal", tags := ["auth"], created_at := "2024-01-02"
    updated_at := "2024-01-03"
    conversation := [⟨"Agent", "Please reset your password", "2024-01-02", true⟩]
    resolution := some "Please reset your password", custom_fields := []
    requester_id := 1, assignee_id := some 2 }

/-- Raw ticket number `i` of the ten-ticket run. -/
def c2Ticket (i : Nat) : Ticket :=
  { id := i, subject := some "S", description := some "D", status := "open"
    priority := "normal", tags := some [], created_at := "c", updated_at := "u"
    requester_id := 1, assignee_id := none, custom_fields := [] }

/-- A run that fetches ten tickets of which the enrichment of ticket 5
raises; embedding and upsert succeed. -/
def c2Deps : OrchDeps Nat :=
  { startDate := "2024-01-01", endDate := "2024-01-31"
    fetched := (List.range 10).map (fun i => c2Ticket (i + 1))
    enrichResult := fun t =>
      if t.id = 5 then .error "socket hang up"
      else .ok (enrichTicketWithComments t none (.ok []))
    embedBatch := fun texts => .ok (texts.map (fun _ => 0))
    upsertResult := fun _ => .ok ()
    timestamp := 0, importDate := "2024-02-01" }

/-- Raw ticket for the resolution-extraction instances. -/
def c3Ticket : Ticket :=
  { id := 7, subject := some "Crash", description := some "app crashes", status := "open"
    priority := "low", tags := some [], created_at := "t0", updated_at := "t4"
    requester_id := 1, assignee_id := some 2, custom_fields := [] }

/-- Conversation: customer, agent answer, trailing whitespace-only customer
message.  The last agent entry with non-blank message is the second one. -/
def c3Comments : List Comment :=
  [⟨1, some "My app crashes", none, "t1", true⟩,
   ⟨2, some "Try rebooting", none, "t2", true⟩,
   ⟨1, some "  ", none, "t3", true⟩]

/-- Raw ticket whose only comment is a private agent note. -/
def c4Ticket : Ticket :=
  { id := 42, subject := some "Refund", description := some "refund request"
    status := "solved", priority := "high", tags := some [], created_at := "t0"
    updated_at := "t2", requester_id := 1, assignee_id := some 2, custom_fields := [] }

/-- A single private (non-public) agent comment with non-blank body. -/
def c4Comments : List Comment :=
  [⟨2, some "Internal note only", none, "t1", false⟩]

/-- Comments written only by the requester (no agent message at all). -/
def c4CustomerComments : List Comment :=
  [⟨1, some "Please help", none, "t1", true⟩]

/-- A run whose date range matches zero tickets. -/
def c5Deps : OrchDeps Nat :=
  { startDate := "2030-01-01", endDate := "2030-01-02", fetched := []
    enrichResult := fun _ => .error "unused"
    embedBatch := fun _ => .error "unused"
    upsertResult := fun _ => .error "unused"
    timestamp := 0, importDate := "2030-01-03" }

/-- Attempt outcomes: every embedding attempt is answered 429 without a
`retry-after` header. -/
def c6Outcome : Nat → EmbedAttempt Unit := fun _ => .http429 .absent

/-- Attempt outcomes: the first embedding attempt succeeds with vector 7. -/
def c7Outcome : Nat → EmbedAttempt Nat := fun _ => .ok 7

/-- A 7001-character text, above the 7000-character transmission limit. -/
def c7LongText : String := String.mk (List.replicate 7001 'b')

/-- Batch outcomes: the third batch (index 2) fails, every other commits. -/
def c8Fail : Nat → Option String := fun k => if k = 2 then some "upsert failed" else none

/-- 250 vectors, so batch 2 exists (100 · 2 < 250). -/
def c8Vectors : List Nat := List.range 250

/-- One page of ticket fields served to the first registry call. -/
def c9Pages : List (Except String FieldPage) :=
  [.ok ⟨[⟨100, "Impact", "tagger", some "impact level", false, some "impact"⟩]⟩]

/-- Page chains the ticketing API would serve to two later calls (they must
not be requested at all). -/
def c9Calls : List (List (Except String FieldPage)) :=
  [[], [.ok ⟨[⟨200, "Other", "text", none, false, none⟩]⟩]]

/-! ## Helper lemmas -/

/-- Looking up the just-assigned key of a JS object finds the new value. -/
theorem lookup_insertAssoc {β : Type} (m : List (String × β)) (k : String) (v : β) :
    (insertAssoc m k v).lookup k = some v := by
  induction m with
  | nil => simp [insertAssoc, List.lookup]
  | cons p rest ih =>
    by_cases h : p.1 = k
    · simp [insertAssoc, h, List.lookup]
    · have hk : (k == p.1) = false := by simp [Ne.symm h]
      simp [insertAssoc, h, List.lookup, hk, ih]

/-- `filterMap` of a constantly-`none` function is empty. -/
theorem filterMap_const_none {α β : Type} (l : List α) :
    l.filterMap (fun _ => (none : Option β)) = [] := by
  induction l <;> simp_all [List.filterMap_cons]

/-- The filtered list has no last element iff nothing satisfies the filter. -/
theorem getLast?_filter_none_iff {α : Type} (p : α → Bool) (l : List α) :
    (l.filter p).getLast? = none ↔ ∀ x ∈ l, ¬ p x = true := by
  rw [List.getLast?_eq_none_iff, List.filter_eq_nil_iff]

/-- A last filtered element decomposes the list: everything after it fails
the filter. -/
theorem getLast?_filter_some {α : Type} (p : α → Bool) (l : List α) (x : α)
    (h : (l.filter p).getLast? = some x) :
    ∃ l1 l2, l = l1 ++ x :: l2 ∧ p x = true ∧ ∀ y ∈ l2, ¬ p y = true := by
  induction l with
  | nil => simp at h
  | cons a t ih =>
    rw [List.filter_cons] at h
    by_cases hpa : p a
    · simp only [hpa, if_true] at h
      rcases heq : t.filter p with _ | ⟨b, fpt⟩
      · rw [heq] at h
        simp only [List.getLast?_singleton, Option.some.injEq] at h
        subst h
        exact ⟨[], t, rfl, hpa, fun y hy => (List.filter_eq_nil_iff.mp heq) y hy⟩
      · rw [heq, List.getLast?_cons_cons, ← heq] at h
        obtain ⟨l1, l2, rfl, hx, hl2⟩ := ih h
        exact ⟨a :: l1, l2, rfl, hx, hl2⟩
    · simp only [hpa, if_false, Bool.false_eq_true] at h
      obtain ⟨l1, l2, rfl, hx, hl2⟩ := ih h
      exact ⟨a :: l1, l2, rfl, hx, hl2⟩

/-- Every pair of `l.zip (l.map f)` relates an element to its image. -/
theorem zip_map_snd {α β : Type} (f : α → β) (l : List α) :
    ∀ q ∈ l.zip (l.map f), q.2 = f q.1 := by
  induction l with
  | nil => simp
  | cons a t ih =>
    intro q hq
    rw [List.map_cons, List.zip_cons_cons] at hq
    rcases List.mem_cons.mp hq with h | h
    · subst h; rfl
    · exact ih q h

/-- The `agentNonEmpty` filter in propositional form. -/
theorem agentNonEmpty_iff (c : ConvEntry) :
    agentNonEmpty c = true ↔ (c.author = "Agent" ∧ jsTrim c.message ≠ "") := by
  simp [agentNonEmpty]

/-- The resolution field of an enriched ticket, unfolded. -/
theorem resolution_eq (ticket : Ticket) (fm : Option FieldsMap)
    (commentsResult : Except String (List Comment)) :
    (enrichTicketWithComments ticket fm commentsResult).resolution =
      (((fetchTicketComments commentsResult).map (convEntryOf ticket)).filter
        agentNonEmpty).getLast?.map (fun c => c.message) := rfl

/-- The conversation field of an enriched ticket, unfolded. -/
theorem conversation_eq (ticket : Ticket) (fm : Option FieldsMap)
    (commentsResult : Except String (List Comment)) :
    (enrichTicketWithComments ticket fm commentsResult).conversation =
      (fetchTicketComments commentsResult).map (convEntryOf ticket) := rfl

/-! ## Claims C3, C4, C10: resolution extraction and enrichment -/

/-- Claim C3: for every enriched ticket the resolution, when non-null,
equals the message of the last conversation entry whose role is Agent
(author-id differs from the requester-id) and whose trimmed message is
non-empty, with no later such entry; if no such entry exists the resolution
is null. -/
theorem c3_resolution_last_agent (ticket : Ticket) (fm : Option FieldsMap)
    (commentsResult : Except String (List Comment)) :
    ((enrichTicketWithComments ticket fm commentsResult).resolution = none ↔
      ∀ c ∈ (enrichTicketWithComments ticket fm commentsResult).conversation,
        ¬(c.author = "Agent" ∧ jsTrim c.message ≠ "")) ∧
    (∀ m, (enrichTicketWithComments ticket fm commentsResult).resolution = some m →
      ∃ l1 c l2,
        (enrichTicketWithComments ticket fm commentsResult).conversation = l1 ++ c :: l2 ∧
        c.author = "Agent" ∧ jsTrim c.message ≠ "" ∧ c.message = m ∧
        ∀ x ∈ l2, ¬(x.author = "Agent" ∧ jsTrim x.message ≠ "")) ∧
    (∀ q ∈ (fetchTicketComments commentsResult).zip
        (enrichTicketWithComments ticket fm commentsResult).conversation,
      (q.2.author = "Agent" ↔ q.1.author_id ≠ ticket.requester_id)) := by
  refine ⟨?_, ?_, ?_⟩
  · rw [resolution_eq, conversation_eq, Option.map_eq_none', getLast?_filter_none_iff]
    constructor
    · intro h c hc
      have hne := h c hc
      rw [agentNonEmpty_iff] at hne
      exact hne
    · intro h c hc
      rw [agentNonEmpty_iff]
      exact h c hc
  · intro m hm
    rw [resolution_eq] at hm
    rw [Option.map_eq_some'] at hm
    obtain ⟨c, hlast, hmsg⟩ := hm
    obtain ⟨l1, l2, hdec, hp, hl2⟩ := getLast?_filter_some _ _ _ hlast
    refine ⟨l1, c, l2, ?_, ?_, ?_, hmsg, ?_⟩
    · rw [conversation_eq, hdec]
    · exact ((agentNonEmpty_iff c).mp hp).1
    · exact ((agentNonEmpty_iff c).mp hp).2
    · intro x hx
      have hne := hl2 x hx
      rw [agentNonEmpty_iff] at hne
      exact hne
  · intro q hq
    rw [conversation_eq] at hq
    have h2 := zip_map_snd (convEntryOf ticket) (fetchTicketComments commentsResult) q hq
    rw [h2]
    by_cases hid : q.1.author_id = ticket.requester_id
    · simp [convEntryOf, hid]
    · simp [convEntryOf, hid]

/-- Claim C3 witness: the three-comment conversation of `c3Comments`
resolves to the agent answer, with only a blank customer message after it. -/
theorem c3_witness :
    ∃ l1 c l2,
      (enrichTicketWithComments c3Ticket none (.ok c3Comments)).conversation = l1 ++ c :: l2 ∧
      c.author = "Agent" ∧ jsTrim c.message ≠ "" ∧ c.message = "Try rebooting" ∧
      ∀ x ∈ l2, ¬(x.author = "Agent" ∧ jsTrim x.message ≠ "") :=
  (c3_resolution_last_agent c3Ticket none (.ok c3Comments)).2.1 "Try rebooting" (by decide)

/-- Claim C4 counterexample: for `c4Ticket` with a single private agent
comment, no public agent message with non-blank body exists in the
conversation, yet the resolution is non-null. -/
theorem c4_counterexample :
    (∀ c ∈ (enrichTicketWithComments c4Ticket none (.ok c4Comments)).conversation,
        ¬(c.public = true ∧ c.author = "Agent" ∧ jsTrim c.message ≠ "")) ∧
    (enrichTicketWithComments c4Ticket none (.ok c4Comments)).resolution =
      some "Internal note only" := by
  decide

/-- Claim C4 (amended): if the conversation contains no agent message with
non-whitespace body — public or private, the flag is not consulted — then
the resolution is null. -/
theorem c4_no_agent_message_resolution_none (ticket : Ticket) (fm : Option FieldsMap)
    (commentsResult : Except String (List Comment))
    (h : ∀ c ∈ (enrichTicketWithComments ticket fm commentsResult).conversation,
        ¬(c.author = "Agent" ∧ jsTrim c.message ≠ "")) :
    (enrichTicketWithComments ticket fm commentsResult).resolution = none := by
  rw [resolution_eq, Option.map_eq_none', getLast?_filter_none_iff]
  intro x hx
  rw [agentNonEmpty_iff]
  exact h x hx

/-- Claim C4 witness: a requester-only conversation gives a null resolution. -/
theorem c4_witness :
    (enrichTicketWithComments c4Ticket none (.ok c4CustomerComments)).resolution = none :=
  c4_no_agent_message_resolution_none c4Ticket none (.ok c4CustomerComments) (by decide)

/-- Claim C10: a failed comment-thread fetch is absorbed inside the fetch;
the enricher still returns an enriched ticket, with empty conversation and
null resolution, instead of propagating the error. -/
theorem c10_enrich_absorbs_fetch_failure (t : Ticket) (fm : Option FieldsMap) (e : String) :
    (enrichTicketWithComments t fm (.error e)).conversation = [] ∧
    (enrichTicketWithComments t fm (.error e)).resolution = none := by
  constructor <;> rfl

/-! ## Claim C1: conversation chunking -/

/-- The overview chunk is not typed as a conversation chunk. -/
theorem isConversationChunk_overview (t : EnrichedTicket) :
    isConversationChunk (overviewChunk t) = false := rfl

/-- The conversation chunk is typed as a conversation chunk. -/
theorem isConversationChunk_conversation (t : EnrichedTicket) :
    isConversationChunk (conversationChunk t) = true := rfl

/-- The resolution chunk is not typed as a conversation chunk. -/
theorem isConversationChunk_resolution (t : EnrichedTicket) :
    isConversationChunk (resolutionChunk t) = false := rfl

/-- The custom-fields chunk is not typed as a conversation chunk. -/
theorem isConversationChunk_customFields (t : EnrichedTicket) :
    isConversationChunk (customFieldsChunk t) = false := rfl

/-- Only the chunks of the conversation group carry type `conversation`. -/
theorem filter_conversation_chunks (t : EnrichedTicket) :
    (chunkTicketData t).filter isConversationChunk = conversationChunks t := by
  have ho : List.filter isConversationChunk [overviewChunk t] = [] := by
    simp [List.filter_cons, isConversationChunk_overview]
  have hc : (conversationChunks t).filter isConversationChunk = conversationChunks t := by
    unfold conversationChunks
    split
    · simp [List.filter_cons, isConversationChunk_conversation]
    · rfl
  have hr : (resolutionChunks t).filter isConversationChunk = [] := by
    unfold resolutionChunks
    split
    · simp [List.filter_cons, isConversationChunk_resolution]
    · rfl
  have hf : (customFieldsChunks t).filter isConversationChunk = [] := by
    unfold customFieldsChunks
    split
    · simp [List.filter_cons, isConversationChunk_customFields]
    · rfl
  unfold chunkTicketData
  rw [List.filter_append, List.filter_append, List.filter_append, ho, hc, hr, hf]
  simp

/-- No chunk emitted by the chunker carries `part` or `totalParts` metadata. -/
theorem lookup_part_none (t : EnrichedTicket) :
    ∀ c ∈ chunkTicketData t,
      c.metadata.lookup "part" = none ∧ c.metadata.lookup "totalParts" = none := by
  intro c hc
  unfold chunkTicketData at hc
  rcases List.mem_append.mp hc with h1 | h4
  · rcases List.mem_append.mp h1 with h2 | h3
    · rcases List.mem_append.mp h2 with ho | hconv
      · rw [List.mem_singleton] at ho
        subst ho
        exact ⟨rfl, rfl⟩
      · unfold conversationChunks at hconv
        split at hconv
        · rw [List.mem_singleton] at hconv
          subst hconv
          exact ⟨rfl, rfl⟩
        · cases hconv
    · unfold resolutionChunks at h3
      split at h3
      · rw [List.mem_singleton] at h3
        subst h3
        exact ⟨rfl, rfl⟩
      · cases h3
  · unfold customFieldsChunks at h4
    split at h4
    · rw [List.mem_singleton] at h4
      subst h4
      exact ⟨rfl, rfl⟩
    · cases h4

/-- Claim C1 (amended): for every enriched ticket with non-empty
conversation the chunker emits exactly one conversation chunk, whose text
is the entire serialized conversation, regardless of its length; no chunk
carries `part` or `totalParts` metadata and no part marker exists. -/
theorem c1_conversation_single_chunk (t : EnrichedTicket) (h : t.conversation ≠ []) :
    (chunkTicketData t).filter isConversationChunk = [conversationChunk t] ∧
    (conversationChunk t).text = conversationChunkText t ∧
    ∀ c ∈ chunkTicketData t,
      c.metadata.lookup "part" = none ∧ c.metadata.lookup "totalParts" = none := by
  refine ⟨?_, rfl, lookup_part_none t⟩
  rw [filter_conversation_chunks]
  unfold conversationChunks
  rw [if_pos (List.length_pos.mpr h)]

/-- Claim C1 witness: a one-message conversation yields exactly the one
conversation chunk. -/
theorem c1_witness :
    (chunkTicketData c1SmallTicket).filter isConversationChunk =
      [conversationChunk c1SmallTicket] :=
  (c1_conversation_single_chunk c1SmallTicket (by decide)).1

/-- Claim C1 counterexample: the conversation of `c1BigTicket` serializes
to 6500 characters, above a 3000-character limit, yet the chunker emits
exactly one conversation chunk — not three, not two or more — and records
no `part`/`totalParts` metadata on any chunk. -/
theorem c1_counterexample :
    (conversationChunkText c1BigTicket).length = 6500 ∧
    3000 < (conversationChunkText c1BigTicket).length ∧
    ((chunkTicketData c1BigTicket).filter isConversationChunk).length = 1 ∧
    ¬ 3 ≤ ((chunkTicketData c1BigTicket).filter isConversationChunk).length ∧
    ¬ 2 ≤ ((chunkTicketData c1BigTicket).filter isConversationChunk).length ∧
    (∀ c ∈ chunkTicketData c1BigTicket,
      c.metadata.lookup "part" = none ∧ c.metadata.lookup "totalParts" = none) := by
  have hmsg : c1LongMessage.length = 6463 := by
    show (List.replicate 6463 'a').length = 6463
    exact List.length_replicate 6463 'a'
  have h1 : conversationTextOf c1BigTicket.conversation =
      ((("1" ++ ". ") ++ "Customer") ++ ": ") ++ c1LongMessage := rfl
  have h1len : (conversationTextOf c1BigTicket.conversation).length = 6476 := by
    rw [h1, String.length_append, String.length_append, String.length_append,
      String.length_append, hmsg]
    decide
  have h2 : conversationChunkText c1BigTicket =
      (("Ticket " ++ "1") ++ " Conversation:\n\n") ++
        conversationTextOf c1BigTicket.conversation := rfl
  have hlen : (conversationChunkText c1BigTicket).length = 6500 := by
    rw [h2, String.length_append, String.length_append, String.length_append, h1len]
    decide
  have hfil : (chunkTicketData c1BigTicket).filter isConversationChunk =
      [conversationChunk c1BigTicket] := by
    rw [filter_conversation_chunks]
    unfold conversationChunks
    rw [if_pos]
    show 0 < c1BigTicket.conversation.length
    decide
  refine ⟨hlen, by rw [hlen]; norm_num, by rw [hfil]; rfl, ?_, ?_, lookup_part_none c1BigTicket⟩
  · rw [hfil]
    norm_num
  · rw [hfil]
    norm_num

/-! ## Claims C2, C5: orchestrator audit records and empty runs -/

/-- `successCounts` distributes over event-trace concatenation. -/
theorem successCounts_append {V : Type} (a b : List (OrchEvent V)) :
    successCounts (a ++ b) = successCounts a ++ successCounts b := by
  simp [successCounts, List.filterMap_append]

/-- Enrichment events contribute no success audit records. -/
theorem successCounts_enrichEvents {V : Type} (d : OrchDeps V) :
    successCounts (orchEnrichEvents d) = [] := by
  rw [successCounts, orchEnrichEvents, List.filterMap_map]
  exact filterMap_const_none d.fetched

/-- Claim C2 (amended): in every modelled run (any run that reaches the
fetch phase), exactly one success audit record is written per orchestrator
invocation; it is the first external side effect after the fetch — before
any enrichment, embedding or upsert — and its ticket count equals the
number of tickets fetched, on every path including the failure paths. -/
theorem c2_success_record_once_fetched_count {V : Type} (d : OrchDeps V) :
    successCounts (autoImportModel d).1 = [d.fetched.length] ∧
    (autoImportModel d).1.head? =
      some (.successRecord d.startDate d.endDate d.fetched.length "auto_import") := by
  unfold autoImportModel
  by_cases h0 : d.fetched.length = 0
  · rw [if_pos h0]
    refine ⟨?_, rfl⟩
    show successCounts [orchSuccessEv d] = [d.fetched.length]
    rfl
  · rw [if_neg h0]
    cases hE : d.embedBatch (orchTexts d) with
    | error e =>
      dsimp only
      refine ⟨?_, rfl⟩
      rw [successCounts_append, successCounts_append, successCounts_enrichEvents]
      rfl
    | ok embeddings =>
      dsimp only
      cases hU : d.upsertResult (orchVectors d embeddings) with
      | error e =>
        dsimp only
        refine ⟨?_, rfl⟩
        rw [successCounts_append, successCounts_append, successCounts_enrichEvents]
        rfl
      | ok u =>
        dsimp only
        refine ⟨?_, rfl⟩
        rw [successCounts_append, successCounts_append, successCounts_enrichEvents]
        rfl

/-- Claim C2 counterexample: ten tickets are fetched, the enrichment of
ticket 5 raises and the other nine succeed, the run completes — yet the
single success audit record carries ticket count 10 (the fetched count),
not 9 (the enriched count), and it is written before enrichment. -/
theorem c2_counterexample :
    (orchEnriched c2Deps).length = 9 ∧
    successCounts (autoImportModel c2Deps).1 = [10] ∧
    (10 : Nat) ≠ 9 ∧
    (autoImportModel c2Deps).2 = .json "Import completed successfully" 9 9 := by
  decide

/-- Claim C5: a run whose date range matches zero tickets skips enrichment,
chunking, embedding and upsert (the trace holds no embedding or upsert
call), still writes one success audit record with ticket count 0, and
responds with status `No tickets found in date range`, zero tickets
processed and zero chunks. -/
theorem c5_zero_tickets_path {V : Type} (d : OrchDeps V) (h : d.fetched = []) :
    (autoImportModel d).1 = [.successRecord d.startDate d.endDate 0 "auto_import"] ∧
    (autoImportModel d).2 = .json "No tickets found in date range" 0 0 ∧
    (∀ ev ∈ (autoImportModel d).1, isEmbedCall ev = false ∧ isUpsertCall ev = false) ∧
    successCounts (autoImportModel d).1 = [0] := by
  have h0 : d.fetched.length = 0 := by rw [h]; rfl
  unfold autoImportModel
  rw [if_pos h0]
  refine ⟨?_, rfl, ?_, ?_⟩
  · show [orchSuccessEv d] = _
    unfold orchSuccessEv
    rw [h0]
  · intro ev hev
    rw [List.mem_singleton] at hev
    subst hev
    exact ⟨rfl, rfl⟩
  · show successCounts [orchSuccessEv d] = [0]
    unfold orchSuccessEv successCounts
    simp [h0]

/-- Claim C5 witness: the concrete empty-range run. -/
theorem c5_witness :
    (autoImportModel c5Deps).1 =
      [.successRecord "2030-01-01" "2030-01-02" 0 "auto_import"] ∧
    (autoImportModel c5Deps).2 = .json "No tickets found in date range" 0 0 :=
  ⟨(c5_zero_tickets_path c5Deps rfl).1, (c5_zero_tickets_path c5Deps rfl).2.1⟩

/-! ## Claim C6: embedding retry delays -/

/-- Claim C6 (code-bug evidence): with `retry-after: 3` the client sleeps
3000 ms ≥ 3 s before the next attempt, and the loop stops after 5 attempts;
but when the header is absent the first retry sleep is 1000000 ms — the
millisecond fallback `baseRetryDelay * 2 ** attempt` is fed through
`parseFloat(...) * 1000` and multiplied by 1000 once more — instead of the
1000 ms base-1-second backoff that the configuration and every other retry
path (`backoffDelay`) use. -/
theorem c6_retry_delay_divergence :
    delay429 (.seconds 3) 0 = 3000 ∧
    3 * 1000 ≤ delay429 (.seconds 3) 0 ∧
    (embedLoop c6Outcome false).sleeps.head? = some 1000000 ∧
    delay429 .absent 0 ≠ backoffDelay 0 ∧
    backoffDelay 0 = 1000 ∧
    (embedLoop c6Outcome false).attempts = 5 ∧
    (embedLoop c6Outcome false).result = .exhausted := by
  decide

/-! ## Claim C7: truncation and cache keying -/

/-- Claim C7: text over 7000 characters is transmitted as its first 7000
characters followed by the `... [truncated]` marker, text of at most 7000
characters is transmitted unchanged, and the cache is keyed by the
transmitted (processed) text: a cache miss transmits exactly the processed
text, and after a successful call the processed text maps to the returned
vector. -/
theorem c7_truncation_and_cache_key {V : Type} (cache : List (String × V)) (text : String)
    (outcome : Nat → EmbedAttempt V) :
    (¬ text.length > 7000 → processTextOf text = text) ∧
    (text.length > 7000 →
      processTextOf text = String.mk (text.data.take 7000) ++ "... [truncated]") ∧
    ((embedTextModel cache text true outcome).transmitted =
      if (cache.lookup (processTextOf text)).isSome then none
      else some (processTextOf text)) ∧
    (∀ v, (embedTextModel cache text true outcome).result = .success v →
      (embedTextModel cache text true outcome).cache.lookup (processTextOf text) = some v) := by
  refine ⟨fun h => by rw [processTextOf, if_neg h],
    fun h => by rw [processTextOf, if_pos h], ?_, ?_⟩
  · unfold embedTextModel
    cases hc : List.lookup (processTextOf text) cache with
    | some v => simp [hc]
    | none => simp [hc]
  · intro v hv
    unfold embedTextModel at hv ⊢
    cases hc : List.lookup (processTextOf text) cache with
    | some w =>
      simp [hc] at hv ⊢
      exact hv ▸ rfl
    | none =>
      simp [hc] at hv ⊢
      rw [hv]
      exact lookup_insertAssoc cache (processTextOf text) v

/-- Claim C7 witness: a short text goes through unchanged and is cached
under itself; a 7001-character text is truncated with the marker. -/
theorem c7_witness :
    processTextOf "hi" = "hi" ∧
    processTextOf c7LongText = String.mk (c7LongText.data.take 7000) ++ "... [truncated]" ∧
    (embedTextModel ([] : List (String × Nat)) "hi" true c7Outcome).transmitted =
      (if ((([] : List (String × Nat)).lookup (processTextOf "hi"))).isSome then none
       else some (processTextOf "hi")) ∧
    (embedTextModel ([] : List (String × Nat)) "hi" true c7Outcome).cache.lookup
      (processTextOf "hi") = some 7 := by
  have hlong : c7LongText.length > 7000 := by
    have h : c7LongText.length = 7001 := by
      show (List.replicate 7001 'b').length = 7001
      exact List.length_replicate 7001 'b'
    rw [h]
    decide
  exact ⟨(c7_truncation_and_cache_key [] "hi" c7Outcome).1 (by decide),
    (c7_truncation_and_cache_key [] c7LongText c7Outcome).2.1 hlong,
    (c7_truncation_and_cache_key [] "hi" c7Outcome).2.2.1,
    (c7_truncation_and_cache_key [] "hi" c7Outcome).2.2.2 7 (by decide)⟩

/-! ## Claim C8: batched vector upsert -/

/-- Every committed batch holds at most 100 vectors. -/
theorem upsertLoopAux_batch_le {α : Type} (f : Nat → Option String) :
    ∀ fuel k (l : List α), ∀ b ∈ (upsertLoopAux f fuel k l).1, b.length ≤ 100 := by
  intro fuel
  induction fuel with
  | zero =>
    intro k l b hb
    cases l with
    | nil => cases hb
    | cons a t => cases hb
  | succ n ih =>
    intro k l b hb
    cases l with
    | nil => cases hb
    | cons a t =>
      cases hf : f k with
      | some e =>
        simp only [upsertLoopAux, hf] at hb
        cases hb
      | none =>
        simp only [upsertLoopAux, hf] at hb
        rcases List.mem_cons.mp hb with h | h
        · subst h
          exact List.length_take_le 100 _
        · exact ih (k + 1) _ b h

/-- With no failing batch, the loop commits exactly the input, in order. -/
theorem upsertLoopAux_ok {α : Type} (f : Nat → Option String) :
    ∀ fuel k (l : List α), l.length ≤ fuel → (∀ j, f (k + j) = none) →
      (upsertLoopAux f fuel k l).1.flatten = l ∧ (upsertLoopAux f fuel k l).2 = none := by
  intro fuel
  induction fuel with
  | zero =>
    intro k l hl hf
    cases l with
    | nil => exact ⟨rfl, rfl⟩
    | cons a t => simp at hl
  | succ n ih =>
    intro k l hl hf
    cases l with
    | nil => exact ⟨rfl, rfl⟩
    | cons a t =>
      have hfk : f k = none := by simpa using hf 0
      simp only [upsertLoopAux, hfk]
      have hlen : ((a :: t).drop 100).length ≤ n := by
        rw [List.length_drop]
        simp only [List.length_cons] at hl ⊢
        omega
      have hfs : ∀ j, f ((k + 1) + j) = none := by
        intro j
        have h := hf (j + 1)
        rw [show k + (j + 1) = (k + 1) + j by omega] at h
        exact h
      obtain ⟨h1, h2⟩ := ih (k + 1) ((a :: t).drop 100) hlen hfs
      refine ⟨?_, h2⟩
      rw [List.flatten_cons, h1, List.take_append_drop]

/-- When batch `kf` raises and every earlier batch commits, the committed
batches are exactly the first `100 · kf` vectors and the error propagates. -/
theorem upsertLoopAux_fail {α : Type} (f : Nat → Option String) (e : String) :
    ∀ kf fuel k0 (l : List α), l.length ≤ fuel →
      (∀ j, j < kf → f (k0 + j) = none) → f (k0 + kf) = some e →
      100 * kf < l.length →
      (upsertLoopAux f fuel k0 l).1.flatten = l.take (100 * kf) ∧
      (upsertLoopAux f fuel k0 l).2 = some e := by
  intro kf
  induction kf with
  | zero =>
    intro fuel k0 l hl hnone hfail hlen
    cases l with
    | nil => simp at hlen
    | cons a t =>
      cases fuel with
      | zero => simp at hl
      | succ n =>
        have hf0 : f k0 = some e := by simpa using hfail
        simp [upsertLoopAux, hf0]
  | succ kf ih =>
    intro fuel k0 l hl hnone hfail hlen
    cases l with
    | nil => simp at hlen
    | cons a t =>
      cases fuel with
      | zero => simp at hl
      | succ n =>
        have hfk : f k0 = none := by simpa using hnone 0 (Nat.succ_pos kf)
        simp only [upsertLoopAux, hfk]
        have hlen2 : ((a :: t).drop 100).length ≤ n := by
          rw [List.length_drop]
          simp only [List.length_cons] at hl ⊢
          omega
        have hnone2 : ∀ j, j < kf → f ((k0 + 1) + j) = none := by
          intro j hj
          have h := hnone (j + 1) (by omega)
          rw [show k0 + (j + 1) = (k0 + 1) + j by omega] at h
          exact h
        have hfail2 : f ((k0 + 1) + kf) = some e := by
          rw [show (k0 + 1) + kf = k0 + (kf + 1) by omega]
          exact hfail
        have hlen3 : 100 * kf < ((a :: t).drop 100).length := by
          rw [List.length_drop]
          simp only [List.length_cons] at hlen ⊢
          omega
        obtain ⟨h1, h2⟩ := ih n (k0 + 1) ((a :: t).drop 100) hlen2 hnone2 hfail2 hlen3
        refine ⟨?_, h2⟩
        rw [List.flatten_cons, h1, ← List.take_add]
        congr 1
        omega

/-- Claim C8: `upsertVectors` writes sequential batches of at most 100
vectors in input order; with no failures the concatenation of the committed
batches is the whole input; if batch k (0-indexed) fails, the error
propagates to the caller and exactly the preceding k batches — the first
100·k vectors — remain committed, with no rollback. -/
theorem c8_upsert_batches {α : Type} (f : Nat → Option String) (l : List α) :
    (∀ b ∈ (upsertVectorsModel f l).1, b.length ≤ 100) ∧
    ((∀ j, f j = none) →
      (upsertVectorsModel f l).1.flatten = l ∧ (upsertVectorsModel f l).2 = none) ∧
    (∀ k e, (∀ j, j < k → f j = none) → f k = some e → 100 * k < l.length →
      (upsertVectorsModel f l).1.flatten = l.take (100 * k) ∧
      (upsertVectorsModel f l).2 = some e) := by
  refine ⟨upsertLoopAux_batch_le f l.length 0 l, ?_, ?_⟩
  · intro hf
    exact upsertLoopAux_ok f l.length 0 l (le_refl _) (fun j => by simpa using hf j)
  · intro k e hnone hfail hlen
    exact upsertLoopAux_fail f e k l.length 0 l (le_refl _)
      (fun j hj => by simpa using hnone j hj) (by simpa using hfail) hlen

/-- Claim C8 witness: 250 vectors with batch 2 failing — the first 200
vectors stay committed and the error surfaces. -/
theorem c8_witness :
    (upsertVectorsModel c8Fail c8Vectors).1.flatten = c8Vectors.take 200 ∧
    (upsertVectorsModel c8Fail c8Vectors).2 = some "upsert failed" :=
  (c8_upsert_batches c8Fail c8Vectors).2.2 2 "upsert failed"
    (by intro j hj; interval_cases j <;> rfl) rfl
    (by simp [c8Vectors])

/-! ## Claim C9: form-field registry cache -/

/-- With a populated cache, every `fetchFormFields` call in a run returns
the cached map with zero page requests and leaves the cache untouched. -/
theorem registryRun_cached (m : FieldsMap) :
    ∀ calls, (registryRun (some m) calls).1 = calls.map (fun _ => (m, 0)) ∧
      (registryRun (some m) calls).2 = some m := by
  intro calls
  induction calls with
  | nil => exact ⟨rfl, rfl⟩
  | cons c rest ih =>
    simp only [registryRun, fetchFormFields, List.map_cons]
    exact ⟨by rw [ih.1], ih.2⟩

/-- Claim C9: the first `fetchFormFields` call stores the loaded map in the
module cache, and from then on every later call — whatever pages the API
would serve it — returns that identical map and performs zero page
requests, for the rest of the run. -/
theorem c9_registry_cache_stable (pages : List (Except String FieldPage))
    (calls : List (List (Except String FieldPage))) :
    (fetchFormFields none pages).2 = some (fetchFormFields none pages).1.1 ∧
    ∀ r ∈ (registryRun (fetchFormFields none pages).2 calls).1,
      r = ((fetchFormFields none pages).1.1, 0) := by
  refine ⟨rfl, ?_⟩
  intro r hr
  have h := registryRun_cached (fetchFormFields none pages).1.1 calls
  have hcache : (fetchFormFields none pages).2 = some (fetchFormFields none pages).1.1 := rfl
  rw [hcache, h.1] at hr
  rcases List.mem_map.mp hr with ⟨c, _, hc⟩
  exact hc.symm

/-- Claim C9 witness: after the concrete first load, the second of the two
later calls (index 1, which would be served a different page chain) still
returns the first loaded map with zero I/O. -/
theorem c9_witness :
    (registryRun (fetchFormFields none c9Pages).2 c9Calls).1.getD 1 ([], 37) =
      ((fetchFormFields none c9Pages).1.1, 0) :=
  (c9_registry_cache_stable c9Pages c9Calls).2 _ (by decide)
